import Mathlib

/-
  Verification of the EPANET 3 pressure-management extension
  (valve head-loss models, valve state machines, the DPRV
  pressure-management controller, and the project error policy).

  The embedding below translates the relevant C++ from
  src/Elements/valve.cpp and src/Core/project.cpp into Lean.
  Real-valued quantities (C++ `double`) are modelled as rationals,
  so every definition is executable and every predicate decidable.
-/

namespace EpanetPM

/-! ## Link status and valve enumerations (from Elements/link.h, valve.h) -/

/-- Link status values: `LINK_CLOSED`, `LINK_OPEN`, `VALVE_ACTIVE`
and `TEMP_CLOSED` (a link temporarily closed by the engine). -/
inductive LinkStatus where
  | LINK_CLOSED
  | LINK_OPEN
  | VALVE_ACTIVE
  | TEMP_CLOSED
deriving DecidableEq, Repr

/-- Valve types, from `Valve::ValveType` in valve.h. -/
inductive ValveType where
  | PRV
  | PSV
  | FCV
  | TCV
  | PBV
  | GPV
  | CCV
  | DPRV
deriving DecidableEq, Repr

/-- DPRV pressure-management modulation modes, from `Valve::PresManagType`. -/
inductive PresManagType where
  | FO
  | TM
  | FM
  | RNM
deriving DecidableEq, Repr

/-- The CCV representation option `VALVE_REP_TYPE` ("Toe", "Cd", or
anything else), from Core/options; only the string comparison matters. -/
inductive RepType where
  | Toe
  | Cd
  | Other
deriving DecidableEq, Repr

/-! ## Numeric constants

The file Core/constants.h is not part of the sources given here, so the
constants it defines are modelled from the specification. -/

/-- Modelled from the spec: `MIN_GRADIENT`, the lower clip applied to
head-loss gradients (Core/constants.h is not in the sources). -/
def MIN_GRADIENT : ℚ := 0.000001

/-- Modelled from the spec: `HIGH_RESISTANCE`, the large resistance
`R_closed` applied to closed links, "typically 1e8"
(Core/constants.h is not in the sources). -/
def HIGH_RESISTANCE : ℚ := 100000000

/-- Modelled from the spec: `ZERO_FLOW`, the zero-flow tolerance used in
status tests (`q < -ZERO_FLOW`) and assigned to the flow of closed
regulating valves; a small positive constant, per the spec invariant
"a CLOSED link must have |q| <= ZERO_FLOW" (Core/constants.h is not in
the sources). -/
def ZERO_FLOW : ℚ := 0.000001

/-- Modelled from the spec: the double-precision constant `PI` used by the
source (Core/constants.h is not in the sources). Its exact value is
immaterial to the claims; only positivity is used. -/
def PI : ℚ := 3.141592653589793

/-! ## Nodes and valves (state relevant to the claims) -/

/-- The per-node state read by the valve subsystem: current head,
previous-step head and elevation (from Elements/node.h). -/
structure NodeState where
  head : ℚ
  pastHead : ℚ
  elev : ℚ
deriving DecidableEq, Repr

/-- The valve state, from the `Valve` class (valve.h), restricted to the
fields read or written by the functions under verification. -/
structure Valve where
  valveType : ValveType
  presManagType : PresManagType
  status : LinkStatus
  hasFixedStatus : Bool
  setting : ℚ
  flow : ℚ
  diameter : ℚ
  lossFactor : ℚ
  elev : ℚ
  fixedOutletPressure : ℚ
  dayPressure : ℚ
  nightPressure : ℚ
  a_FM : ℚ
  b_FM : ℚ
  c_FM : ℚ
  rnmPressure : ℚ
  dprvOutletPressure : ℚ
  Xm : ℚ
  delta_Xm : ℚ
  Xm_Last : ℚ
  errorValve : ℚ
  errorSumValve : ℚ
  errorDifValve : ℚ
  errorPreValve : ℚ
  hLoss : ℚ
  hGrad : ℚ
  inertialTerm : ℚ

/-! ## Head-loss functions (Valve::find*HeadLoss, valve.cpp) -/

/-- Modelled from the spec: `HeadLossModel::findClosedHeadLoss`
(Models/headlossmodel.cpp is not in the sources): a closed link gets
`hLoss = q * R_closed`, `hGrad = R_closed` with `R_closed` large.
Returns `(hLoss, hGrad)`. -/
def findClosedHeadLoss (q : ℚ) : ℚ × ℚ :=
  (q * HIGH_RESISTANCE, HIGH_RESISTANCE)

/-- `Valve::findOpenHeadLoss` (valve.cpp): head loss of a fully open
valve with the given loss factor. Returns `(hLoss, hGrad)`. -/
def findOpenHeadLoss (lossFactor q : ℚ) : ℚ × ℚ :=
  let hGrad := 2 * lossFactor * |q|
  if hGrad < MIN_GRADIENT then (MIN_GRADIENT * q, MIN_GRADIENT)
  else (hGrad * q / 2, hGrad)

/-- `Valve::findPbvHeadLoss` (valve.cpp). Returns `(hLoss, hGrad)`. -/
def findPbvHeadLoss (v : Valve) (q : ℚ) : ℚ × ℚ :=
  let mloss := v.lossFactor * q * q
  if mloss ≥ |v.setting| then findOpenHeadLoss v.lossFactor q
  else (v.setting, MIN_GRADIENT)

/-- `Valve::findTcvHeadLoss` (valve.cpp): the throttled loss factor,
no smaller than the fully open one, fed to the open formula; the valve's
own `lossFactor` is restored afterwards. Returns `(hLoss, hGrad)`. -/
def findTcvHeadLoss (v : Valve) (q : ℚ) : ℚ × ℚ :=
  let d2 := v.diameter * v.diameter
  let lf := max (0.025173 * v.setting / d2 / d2) v.lossFactor
  findOpenHeadLoss lf q

/-- `Valve::findCcvHeadLoss` (valve.cpp): the loss factor of a closure
control valve from either the Toe-coefficient or the Tullis-Cd
representation; this overwrite of `lossFactor` is NOT restored in the
source (the restore line is commented out). Returns the new loss factor. -/
def ccvLossFactor (repType : RepType) (v : Valve) : ℚ :=
  match repType with
  | RepType.Toe =>
      let vc := (16.96 : ℚ)
      1 / (vc * vc * (v.setting * v.setting))
  | RepType.Cd =>
      let d2 := v.diameter * v.diameter
      let FullArea := d2 * PI / 4
      let FullArea2 := FullArea * FullArea
      let Cd := -1.1293 * v.setting ^ 6 + 3.3823 * v.setting ^ 5
                - 3.443 * v.setting ^ 4 + 0.5671 * v.setting ^ 3
                + 1.0371 * v.setting ^ 2 - 0.0037 * v.setting
      let g := (32.174 : ℚ)
      (1 / (Cd * Cd) - 1) * (1 / (2 * g * FullArea2))
  | RepType.Other => v.lossFactor

/-- The tabulated DPRV flow-coefficient constants (valve.cpp,
`Valve::findDprvHeadLoss`). -/
def k1 : ℚ := 0.09
def k2 : ℚ := -1.21
def k3 : ℚ := 2.33
def k4 : ℚ := -0.21
def Cvmax : ℚ := 1.442760731
def Cvtr : ℚ := 0.07550186203

/-- The DPRV flow coefficient `Cv(Xm)` (valve.cpp,
`Valve::findDprvHeadLoss`): linear below the transition opening 0.12,
cubic above. The source leaves `Cv` uninitialized outside `[0,1]`;
that branch is given the junk value 0 and no claim depends on it. -/
def dprvCv (Xm : ℚ) : ℚ :=
  if 0 ≤ Xm ∧ Xm < 0.12 then Cvtr * Xm / 0.12
  else if 0.12 ≤ Xm ∧ Xm ≤ 1 then
    (k1 * Xm ^ 3 + k2 * Xm ^ 2 + k3 * Xm + k4) * Cvmax
  else 0

/-- `Valve::findDprvHeadLoss` (valve.cpp): loss factor `1/Cv²` fed to the
open-valve formula; the valve's `lossFactor` is restored afterwards.
Returns `(hLoss, hGrad)`. -/
def findDprvHeadLoss (v : Valve) (q : ℚ) : ℚ × ℚ :=
  let Cv := dprvCv v.Xm
  findOpenHeadLoss (1 / (Cv * Cv)) q

/-- The DPRV flow coefficient exactly as claim C2 of the specification
words it: `Cv = Cv_tr * Xm / 0.12` for `0 <= Xm < 0.12` and
`Cv = (k1 Xm^3 + k2 Xm^2 + k3 Xm + k4) * Cv_max` for `0.12 <= Xm <= 1`
(stated for comparison with the source's `dprvCv`). -/
def CvSpec (Xm : ℚ) : ℚ :=
  if Xm < 0.12 then Cvtr * Xm / 0.12
  else (k1 * Xm ^ 3 + k2 * Xm ^ 2 + k3 * Xm + k4) * Cvmax

/-- `Valve::findGpvHeadLoss` (valve.cpp). The head-loss curve lookup
`Curve::findSegment` (Elements/curve.cpp is not in the sources) is
modelled from the spec as a function returning the slope and intercept
`(r, h0)` of the segment containing the query. Returns `(hLoss, hGrad)`. -/
def findGpvHeadLoss (curveSeg : ℚ → ℚ × ℚ) (ucfFlow ucfLength : ℚ)
    (q : ℚ) : ℚ × ℚ :=
  let qRaw := |q| * ucfFlow
  let seg := curveSeg qRaw
  let r := seg.1 * ucfFlow / ucfLength
  let h0 := seg.2 / ucfLength
  let hLoss := h0 + r * |q|
  (if q < 0 then -hLoss else hLoss, r)

/-- `Valve::findFcvHeadLoss` (valve.cpp). Returns `(hLoss, hGrad)`. -/
def findFcvHeadLoss (v : Valve) (q : ℚ) : ℚ × ℚ :=
  let xflow := q - v.setting
  if xflow > 0 then
    (v.lossFactor * v.setting * v.setting + HIGH_RESISTANCE * xflow,
     HIGH_RESISTANCE)
  else if q < 0 then findClosedHeadLoss q
  else findOpenHeadLoss v.lossFactor q

/-- The environment read by `Valve::findHeadLoss` from the `Network`
argument: the CCV representation option, the GPV head-loss curve and
the unit conversion factors. -/
structure HlEnv where
  repType : RepType
  curveSeg : ℚ → ℚ × ℚ
  ucfFlow : ℚ
  ucfLength : ℚ

/-- `Valve::findHeadLoss` (valve.cpp): dispatch on status and valve type;
updates `hLoss`, `hGrad`, `inertialTerm`, and for a CCV also `status`
and (unrestored) `lossFactor`. -/
def findHeadLoss (env : HlEnv) (v0 : Valve) (q : ℚ) : Valve :=
  let v := { v0 with hLoss := 0, hGrad := 0 }
  if v.status = LinkStatus.TEMP_CLOSED then
    let hl := findClosedHeadLoss q
    { v with hLoss := hl.1, hGrad := hl.2, inertialTerm := MIN_GRADIENT }
  else if v.hasFixedStatus then
    if v.status = LinkStatus.LINK_CLOSED then
      let hl := findClosedHeadLoss q
      { v with hLoss := hl.1, hGrad := hl.2, inertialTerm := MIN_GRADIENT }
    else if v.status = LinkStatus.LINK_OPEN then
      let hl := findOpenHeadLoss v.lossFactor q
      { v with hLoss := hl.1, hGrad := hl.2, inertialTerm := MIN_GRADIENT }
    else v
  else
    match v.valveType with
    | ValveType.PBV =>
        let hl := findPbvHeadLoss v q
        { v with hLoss := hl.1, hGrad := hl.2, inertialTerm := MIN_GRADIENT }
    | ValveType.TCV =>
        let hl := findTcvHeadLoss v q
        { v with hLoss := hl.1, hGrad := hl.2, inertialTerm := MIN_GRADIENT }
    | ValveType.CCV =>
        if v.setting = 0 then
          let hl := findClosedHeadLoss q
          { v with status := LinkStatus.LINK_CLOSED,
                   hLoss := hl.1, hGrad := hl.2,
                   inertialTerm := MIN_GRADIENT }
        else
          let lf := ccvLossFactor env.repType v
          let hl := findOpenHeadLoss lf q
          { v with status := LinkStatus.LINK_OPEN,
                   lossFactor := lf,
                   hLoss := hl.1, hGrad := hl.2,
                   inertialTerm := 10.765 / (32.174 * PI * v.diameter * v.diameter) }
    | ValveType.DPRV =>
        if v.status = LinkStatus.LINK_CLOSED ∨ v.Xm = 0 then
          let hl := findClosedHeadLoss q
          { v with hLoss := hl.1, hGrad := hl.2, inertialTerm := MIN_GRADIENT }
        else if v.status = LinkStatus.LINK_OPEN then
          let hl := findOpenHeadLoss v.lossFactor q
          { v with hLoss := hl.1, hGrad := hl.2, inertialTerm := 0 }
        else
          let hl := findDprvHeadLoss v q
          { v with hLoss := hl.1, hGrad := hl.2, inertialTerm := 0 }
    | ValveType.GPV =>
        let hl := findGpvHeadLoss env.curveSeg env.ucfFlow env.ucfLength q
        { v with hLoss := hl.1, hGrad := hl.2, inertialTerm := MIN_GRADIENT }
    | ValveType.FCV =>
        let hl := findFcvHeadLoss v q
        { v with hLoss := hl.1, hGrad := hl.2, inertialTerm := MIN_GRADIENT }
    | ValveType.PRV =>
        if v.status = LinkStatus.LINK_CLOSED then
          let hl := findClosedHeadLoss q
          { v with hLoss := hl.1, hGrad := hl.2, inertialTerm := MIN_GRADIENT }
        else if v.status = LinkStatus.LINK_OPEN then
          let hl := findOpenHeadLoss v.lossFactor q
          { v with hLoss := hl.1, hGrad := hl.2, inertialTerm := MIN_GRADIENT }
        else { v with inertialTerm := MIN_GRADIENT }
    | ValveType.PSV =>
        if v.status = LinkStatus.LINK_CLOSED then
          let hl := findClosedHeadLoss q
          { v with hLoss := hl.1, hGrad := hl.2, inertialTerm := MIN_GRADIENT }
        else if v.status = LinkStatus.LINK_OPEN then
          let hl := findOpenHeadLoss v.lossFactor q
          { v with hLoss := hl.1, hGrad := hl.2, inertialTerm := MIN_GRADIENT }
        else { v with inertialTerm := MIN_GRADIENT }

/-! ## Valve status machines (Valve::update*Status, valve.cpp) -/

/-- `Valve::updatePrvStatus` (valve.cpp): PRV transition with
`hset = setting + elev`. Returns the new status. -/
def updatePrvStatus (v : Valve) (q h1 h2 : ℚ) : LinkStatus :=
  let hset := v.setting + v.elev
  match v.status with
  | LinkStatus.VALVE_ACTIVE =>
      if q < -ZERO_FLOW then LinkStatus.LINK_CLOSED
      else if h1 < hset then LinkStatus.LINK_OPEN
      else v.status
  | LinkStatus.LINK_OPEN =>
      if q < -ZERO_FLOW then LinkStatus.LINK_CLOSED
      else if h2 > hset then LinkStatus.VALVE_ACTIVE
      else v.status
  | LinkStatus.LINK_CLOSED =>
      if h1 > hset ∧ h2 < hset then LinkStatus.VALVE_ACTIVE
      else if h1 < hset ∧ h1 > h2 then LinkStatus.LINK_OPEN
      else v.status
  | LinkStatus.TEMP_CLOSED => v.status

/-- `Valve::updateDprvStatus` (valve.cpp): the DPRV recomputes
`dprvOutletPressure` (for mode FO, `fixedOutletPressure / 0.3048`;
otherwise the current downstream pressure `H_to - elev_to`), sets
`hset = dprvOutletPressure + elev`, and runs the PRV-shaped switch.
Returns the new status together with the updated `dprvOutletPressure`. -/
def updateDprvStatus (v : Valve) (toNode : NodeState) (q h1 h2 : ℚ) :
    LinkStatus × ℚ :=
  let dop := if v.presManagType = PresManagType.FO
             then v.fixedOutletPressure / 0.3048
             else toNode.head - toNode.elev
  let hset := dop + v.elev
  let s :=
    match v.status with
    | LinkStatus.VALVE_ACTIVE =>
        if q < -ZERO_FLOW then LinkStatus.LINK_CLOSED
        else if h1 < hset then LinkStatus.LINK_OPEN
        else v.status
    | LinkStatus.LINK_OPEN =>
        if q < -ZERO_FLOW then LinkStatus.LINK_CLOSED
        else if h2 > hset then LinkStatus.VALVE_ACTIVE
        else v.status
    | LinkStatus.LINK_CLOSED =>
        if h1 > hset ∧ h2 < hset then LinkStatus.VALVE_ACTIVE
        else if h1 < hset ∧ h1 > h2 then LinkStatus.LINK_OPEN
        else v.status
    | LinkStatus.TEMP_CLOSED => v.status
  (s, dop)

/-- `Valve::updatePsvStatus` (valve.cpp): PSV transition with
`hset = setting + elev`. Returns the new status. -/
def updatePsvStatus (v : Valve) (q h1 h2 : ℚ) : LinkStatus :=
  let hset := v.setting + v.elev
  match v.status with
  | LinkStatus.VALVE_ACTIVE =>
      if q < -ZERO_FLOW then LinkStatus.LINK_CLOSED
      else if h2 > hset then LinkStatus.LINK_OPEN
      else v.status
  | LinkStatus.LINK_OPEN =>
      if q < -ZERO_FLOW then LinkStatus.LINK_CLOSED
      else if h1 < hset then LinkStatus.VALVE_ACTIVE
      else v.status
  | LinkStatus.LINK_CLOSED =>
      if h2 < hset ∧ h1 > hset then LinkStatus.VALVE_ACTIVE
      else if h2 > hset ∧ h1 > h2 then LinkStatus.LINK_OPEN
      else v.status
  | LinkStatus.TEMP_CLOSED => v.status

/-- The `switch (valveType)` block of `Valve::updateStatus` (valve.cpp):
the proposed new status by valve type, together with the
`dprvOutletPressure` a DPRV recomputes along the way. -/
def chooseStatus (v : Valve) (toNode : NodeState) (q h1 h2 : ℚ) :
    LinkStatus × ℚ :=
  match v.valveType with
  | ValveType.PRV => (updatePrvStatus v q h1 h2, v.dprvOutletPressure)
  | ValveType.DPRV => updateDprvStatus v toNode q h1 h2
  | ValveType.PSV => (updatePsvStatus v q h1 h2, v.dprvOutletPressure)
  | _ => (v.status, v.dprvOutletPressure)

/-- `Valve::updateStatus` (valve.cpp): dispatch on valve type; when the
chosen status differs from the current one it is installed, and a
transition into `LINK_CLOSED` sets `flow := ZERO_FLOW`. The `toNode`
argument carries the downstream node state read by a DPRV. -/
def updateStatus (v : Valve) (toNode : NodeState) (q h1 h2 : ℚ) : Valve :=
  if v.hasFixedStatus then v
  else
    let r := chooseStatus v toNode q h1 h2
    if r.1 ≠ v.status then
      { v with
        dprvOutletPressure := r.2,
        status := r.1,
        flow := if r.1 = LinkStatus.LINK_CLOSED then ZERO_FLOW
                else v.flow }
    else { v with dprvOutletPressure := r.2 }

/-- The PRV transition structure exactly as the specification states it,
parameterized by the head setting `hset` (used to compare the
source-level PRV and DPRV machines against the spec). -/
def prvTransitionSpec (st : LinkStatus) (q h1 h2 hset : ℚ) : LinkStatus :=
  match st with
  | LinkStatus.VALVE_ACTIVE =>
      if q < -ZERO_FLOW then LinkStatus.LINK_CLOSED
      else if h1 < hset then LinkStatus.LINK_OPEN
      else st
  | LinkStatus.LINK_OPEN =>
      if q < -ZERO_FLOW then LinkStatus.LINK_CLOSED
      else if h2 > hset then LinkStatus.VALVE_ACTIVE
      else st
  | LinkStatus.LINK_CLOSED =>
      if h1 > hset ∧ h2 < hset then LinkStatus.VALVE_ACTIVE
      else if h1 < hset ∧ h1 > h2 then LinkStatus.LINK_OPEN
      else st
  | LinkStatus.TEMP_CLOSED => st

/-! ## Valve::changeSetting (valve.cpp) -/

/-- `Valve::changeSetting` (valve.cpp): setting change with early return
for closed valves; for a CCV the early return requires the new setting
to be zero. Returns the updated valve and the boolean the source
returns (the message-log write, pure output, is omitted). -/
def changeSetting (v : Valve) (newSetting : ℚ) (makeChange : Bool) :
    Valve × Bool :=
  if v.valveType = ValveType.CCV then
    if v.setting ≠ newSetting then
      if v.status = LinkStatus.LINK_CLOSED ∧ newSetting = 0 then
        ({ v with setting := newSetting }, false)
      else if makeChange then
        (if newSetting = 0 then
           { v with status := LinkStatus.LINK_CLOSED, flow := ZERO_FLOW,
                    setting := newSetting }
         else { v with status := LinkStatus.LINK_OPEN,
                       setting := newSetting }, true)
      else (v, true)
    else (v, false)
  else
    if v.setting ≠ newSetting then
      if v.status = LinkStatus.LINK_CLOSED then
        ({ v with setting := newSetting }, false)
      else if makeChange then
        (if newSetting = 0 then
           { v with status := LinkStatus.LINK_CLOSED, flow := ZERO_FLOW,
                    setting := newSetting }
         else { v with status := LinkStatus.LINK_OPEN,
                       setting := newSetting }, true)
      else (v, true)
    else (v, false)

/-! ## The pressure-management controller (Project::pressureManagement,
project.cpp) -/

/-- The physical DPRV controller constants (project.cpp,
`Project::pressureManagement`). -/
def Vcontrol : ℚ := 0.0047
def lift : ℚ := 0.057
def k5 : ℚ := 1.30
def k6 : ℚ := 0.56

/-- The piston cross-section `Acs = (k5 * Xm^2 + k6) * Vcontrol / lift`
(project.cpp, `Project::pressureManagement`). -/
def Acs (Xm : ℚ) : ℚ := (k5 * Xm * Xm + k6) * Vcontrol / lift

/-- The physical control law of `Project::pressureManagement`:
`q3 = alfaopen * e` when `e >= 0`, else `alfaclose * e` (the source's
`else if (errorValve <= 0)` branch is the complement of the first). -/
def physicalQ3 (alfaopen alfaclose e : ℚ) : ℚ :=
  if e ≥ 0 then alfaopen * e else alfaclose * e

/-- The final clamp of `Xm` to `[0, 1]` at the end of the per-valve loop
of `Project::pressureManagement` (project.cpp). -/
def clampXm (v : Valve) : Valve :=
  let v4 := if v.Xm < 0 then { v with Xm := 0 } else v
  if v4.Xm > 1 then { v4 with Xm := 1 } else v4

/-- The hard-coded TM (time-modulated) setpoint schedule (project.cpp,
`Project::pressureManagement`): an else-if chain of closed intervals.
When no branch fires (t < 0 or t > 604800) the C++ reads the stale,
uninitialized local `ref`; that value enters here as `refUninit`. -/
def tmRef (t : ℤ) (day night ucfP refUninit : ℚ) : ℚ :=
  if 0 ≤ t ∧ t ≤ 3600 then day / ucfP
  else if 3600 ≤ t ∧ t ≤ 18000 then night / ucfP
  else if 18000 ≤ t ∧ t ≤ 90000 then day / ucfP
  else if 90000 ≤ t ∧ t ≤ 104400 then night / ucfP
  else if 104400 ≤ t ∧ t ≤ 176400 then day / ucfP
  else if 176400 ≤ t ∧ t ≤ 190800 then night / ucfP
  else if 190800 ≤ t ∧ t ≤ 262800 then day / ucfP
  else if 262800 ≤ t ∧ t ≤ 277200 then night / ucfP
  else if 277200 ≤ t ∧ t ≤ 349200 then day / ucfP
  else if 349200 ≤ t ∧ t ≤ 363600 then night / ucfP
  else if 363600 ≤ t ∧ t ≤ 435600 then day / ucfP
  else if 435600 ≤ t ∧ t ≤ 450000 then night / ucfP
  else if 450000 ≤ t ∧ t ≤ 522000 then day / ucfP
  else if 522000 ≤ t ∧ t ≤ 536400 then night / ucfP
  else if 536400 ≤ t ∧ t ≤ 604800 then day / ucfP
  else refUninit

/-- The per-valve environment read by `Project::pressureManagement`:
current time, hydraulic step, unit conversion factors, the physical
control gains, the valve's endpoint and remote node states, and the
stale value of the uninitialized `ref` local (see `tmRef`). -/
structure PmEnv where
  t : ℤ
  deltat : ℚ
  ucfPressure : ℚ
  ucfFlow : ℚ
  ucfLength : ℚ
  alfaopen : ℚ
  alfaclose : ℚ
  toNode : NodeState
  fromNode : NodeState
  remoteNode : NodeState
  refUninit : ℚ

/-- The setpoint `ref` computed by `Project::pressureManagement` for an
active DPRV, by modulation mode (project.cpp). -/
def dprvRef (env : PmEnv) (v : Valve) : ℚ :=
  match v.presManagType with
  | PresManagType.FO => v.fixedOutletPressure / env.ucfPressure
  | PresManagType.TM =>
      tmRef env.t v.dayPressure v.nightPressure env.ucfPressure env.refUninit
  | PresManagType.FM =>
      (v.a_FM * (v.flow * env.ucfFlow) * (v.flow * env.ucfFlow)
        + v.b_FM * (v.flow * env.ucfFlow) + v.c_FM) / env.ucfLength
  | PresManagType.RNM => v.rnmPressure / env.ucfPressure

/-- The pressure the error is computed against in
`Project::pressureManagement`: the downstream pressure, except for RNM
where it is the remote node's pressure (project.cpp). -/
def dprvTarget (env : PmEnv) (v : Valve) : ℚ :=
  match v.presManagType with
  | PresManagType.RNM => env.remoteNode.head - env.remoteNode.elev
  | _ => env.toNode.head - env.toNode.elev

/-- The body of the per-DPRV loop of `Project::pressureManagement`
(project.cpp): initialization at `t = 0`, the FO reopen test, the
per-mode error, the physical control law
(`q3 = alfaopen * e` for `e >= 0`, else `alfaclose * e`),
`delta_Xm = (q3 / Acs) * deltat` with
`Acs = (k5 * Xm^2 + k6) * Vcontrol / lift`,
`Xm = delta_Xm + Xm_Last`, and the final clamp of `Xm` to `[0, 1]`.
The commented-out PID block of the source is not modelled.
Non-DPRV links are returned unchanged. -/
def pmStep (env : PmEnv) (v0 : Valve) : Valve :=
  if v0.valveType ≠ ValveType.DPRV then v0
  else
    let v1 := if env.t = 0 then
        { v0 with Xm := 0.2, Xm_Last := 0.2, delta_Xm := 0,
                  errorValve := 0, errorSumValve := 0, errorDifValve := 0,
                  errorPreValve := 0.5 }
      else v0
    let pToNode := env.toNode.head - env.toNode.elev
    let pFromNode := env.fromNode.head - env.fromNode.elev
    let v2 := if v1.presManagType = PresManagType.FO
                ∧ v1.status = LinkStatus.LINK_CLOSED
                ∧ pFromNode > v1.fixedOutletPressure / env.ucfPressure
                ∧ pToNode < v1.fixedOutletPressure / env.ucfPressure then
        { v1 with status := LinkStatus.VALVE_ACTIVE }
      else v1
    let v3 := if v2.status = LinkStatus.VALVE_ACTIVE then
        let e := dprvRef env v2 - dprvTarget env v2
        let q3 := physicalQ3 env.alfaopen env.alfaclose e
        let d := q3 / Acs v2.Xm * env.deltat
        { v2 with errorValve := e, delta_Xm := d, Xm := d + v2.Xm_Last }
      else v2
    clampXm v3

/-- `Project::lasting` (project.cpp): after a successful step each DPRV
snapshots `Xm_Last := Xm` and `errorPreValve := errorValve`. -/
def lasting (v : Valve) : Valve :=
  if v.valveType = ValveType.DPRV then
    { v with Xm_Last := v.Xm, errorPreValve := v.errorValve }
  else v

/-! ## Project::runSolver and the error policy (project.cpp) -/

/-- A typed EPANET error: an integer code and a message (Core/error.h is
not in the sources; modelled from the spec: "deep layers signal failure
with a typed error carrying an integer code and a message"). -/
structure ENerror where
  code : ℕ
  msg : String

/-- Modelled from the spec: the `SystemError` raised when the solver is
used before initialization; error codes are small positive integers
(Core/error.h is not in the sources, so the concrete code is nominal). -/
def solverNotInitializedError : ENerror :=
  { code := 103, msg := "System Error 103: solver not initialized." }

/-- The project state read and written by `Project::runSolver`:
the initialization flag and the message log. -/
structure ProjectState where
  solverInitialized : Bool
  msgLog : List String

/-- `Project::runSolver` (project.cpp): throws the solver-not-initialized
`SystemError` when `initSolver` has not succeeded; any thrown `ENerror`
is caught, its message appended to the log, and its code returned.
The behaviour of `HydEngine::solve` (not in the sources) enters as the
`solveResult` parameter; on success the function returns 0. -/
def runSolver (solveResult : Except ENerror Unit) (p : ProjectState) :
    ℕ × ProjectState :=
  if ¬ p.solverInitialized then
    (solverNotInitializedError.code,
     { p with msgLog := p.msgLog ++ [solverNotInitializedError.msg] })
  else
    match solveResult with
    | Except.ok _ => (0, p)
    | Except.error e => (e.code, { p with msgLog := p.msgLog ++ [e.msg] })

/-! ## Concrete fixtures used by witnesses and counterexamples -/

/-- A concrete DPRV in FO mode, active, half open, with the field values
of boundary scenario 4 of the spec (setpoint 30). -/
def vBase : Valve :=
  { valveType := ValveType.DPRV, presManagType := PresManagType.FO,
    status := LinkStatus.VALVE_ACTIVE, hasFixedStatus := false,
    setting := 30, flow := 1, diameter := 1, lossFactor := 2, elev := 0,
    fixedOutletPressure := 30, dayPressure := 40, nightPressure := 25,
    a_FM := 1, b_FM := 1, c_FM := 1, rnmPressure := 20,
    dprvOutletPressure := 0, Xm := 0.5, delta_Xm := 0, Xm_Last := 0.5,
    errorValve := 0, errorSumValve := 0, errorDifValve := 0,
    errorPreValve := 0.5, hLoss := 0, hGrad := 0, inertialTerm := 0 }

/-- A concrete downstream node: head 20, elevation 0. -/
def nodeTo : NodeState := { head := 20, pastHead := 20, elev := 0 }

/-- A concrete controller environment: `t = 100`, hydraulic step 10,
unit conversion factors 1, the gains of boundary scenario 4. -/
def envBase : PmEnv :=
  { t := 100, deltat := 10, ucfPressure := 1, ucfFlow := 1, ucfLength := 1,
    alfaopen := 0.000001, alfaclose := 0.000001,
    toNode := nodeTo,
    fromNode := { head := 50, pastHead := 50, elev := 0 },
    remoteNode := { head := 15, pastHead := 15, elev := 0 },
    refUninit := 0 }

/-- A concrete head-loss environment with trivial curve and unit factors. -/
def hlEnvBase : HlEnv :=
  { repType := RepType.Toe, curveSeg := fun _ => (1, 0),
    ucfFlow := 1, ucfLength := 1 }

/-- The concrete DPRV of `vBase` switched to TM modulation. -/
def vTM : Valve := { vBase with presManagType := PresManagType.TM }

/-- A concrete PRV: `vBase` with the valve type changed to PRV. -/
def vPRV : Valve := { vBase with valveType := ValveType.PRV }

/-- A concrete closed CCV with setting 30. -/
def vCCV : Valve :=
  { vBase with valveType := ValveType.CCV, status := LinkStatus.LINK_CLOSED }

/-- The concrete DPRV of `vBase` temporarily closed by the engine. -/
def vTmp : Valve := { vBase with status := LinkStatus.TEMP_CLOSED }

/-!
# Theorems

One theorem per claim of the specification audit, with witnesses for the
theorems that carry hypotheses and counterexamples where the source
contradicts the claim.
-/

/-- Helper: for a PRV without fixed status, `updateStatus` installs
exactly the status chosen by `updatePrvStatus`. -/
theorem updateStatus_status_prv (v : Valve) (n : NodeState) (q h1 h2 : ℚ)
    (hty : v.valveType = ValveType.PRV) (hfx : v.hasFixedStatus = false) :
    (updateStatus v n q h1 h2).status = updatePrvStatus v q h1 h2 := by
  rcases eq_or_ne (updatePrvStatus v q h1 h2) v.status with he | he
  · simp [updateStatus, chooseStatus, hfx, hty, he]
  · simp [updateStatus, chooseStatus, hfx, hty, he]

/-- Helper: `updatePrvStatus` is the spec's PRV transition structure with
`hset = setting + elev`. -/
theorem updatePrv_eq_spec (v : Valve) (q h1 h2 : ℚ) :
    updatePrvStatus v q h1 h2
      = prvTransitionSpec v.status q h1 h2 (v.setting + v.elev) := by
  cases hs : v.status <;> simp [updatePrvStatus, prvTransitionSpec, hs]

/-- Claim C5: for every PRV without fixed status, `updateStatus` with flow
`q`, heads `h1 = H_from`, `h2 = H_to` and `hset = setting + elev_to`
performs exactly the ACTIVE/OPEN/CLOSED transitions the spec lists and
otherwise leaves the status unchanged. (`Valve.elev` holds the
downstream-node elevation for a PRV, per `Valve::convertSetting`.) -/
theorem claim_C5 (v : Valve) (n : NodeState) (q h1 h2 : ℚ)
    (hty : v.valveType = ValveType.PRV)
    (hfx : v.hasFixedStatus = false)
    (helev : v.elev = n.elev) :
    (updateStatus v n q h1 h2).status
      = prvTransitionSpec v.status q h1 h2 (v.setting + n.elev) := by
  rw [updateStatus_status_prv v n q h1 h2 hty hfx, updatePrv_eq_spec v q h1 h2,
    helev]

/-- Witness for C5 at a concrete PRV (active, reverse flow closes it). -/
theorem claim_C5_witness :
    (updateStatus vPRV nodeTo (-1) 50 20).status
      = prvTransitionSpec vPRV.status (-1) 50 20 (vPRV.setting + nodeTo.elev) :=
  claim_C5 vPRV nodeTo (-1) 50 20 rfl rfl rfl

/-- Claim C4 (amended): the DPRV status rule has the PRV transition
structure, but with `hset = fixedOutletPressure / 0.3048 + elev` for
mode FO (the source converts the fixed outlet pressure by the hard-coded
factor 0.3048) and `hset = (H_to - elev_to) + elev` for modes TM/FM/RNM,
which equals the current downstream head `H_to` when the valve's stored
elevation is the downstream node's elevation. -/
theorem claim_C4 (v : Valve) (n : NodeState) (q h1 h2 : ℚ) :
    (updateDprvStatus v n q h1 h2).1
      = prvTransitionSpec v.status q h1 h2
          ((if v.presManagType = PresManagType.FO
            then v.fixedOutletPressure / 0.3048
            else n.head - n.elev) + v.elev)
    ∧ (v.presManagType ≠ PresManagType.FO → v.elev = n.elev →
        (if v.presManagType = PresManagType.FO
         then v.fixedOutletPressure / 0.3048
         else n.head - n.elev) + v.elev = n.head) := by
  constructor
  · cases hs : v.status <;> simp [updateDprvStatus, prvTransitionSpec, hs]
  · intro hfo helev
    rw [if_neg hfo, helev]
    ring

/-- Counterexample to C4 as stated: for the concrete FO-mode DPRV `vBase`
(`fixedOutletPressure = 30`, `elev_to = 0`, active, `q = 0`,
`H_from = 50`, `H_to = 20`), the source rule moves the valve to
`LINK_OPEN` (because its `hset` is `30 / 0.3048 ≈ 98.4 > 50`), while the
PRV structure with the claimed `hset = fixedOutletPressure + elev_to = 30`
keeps it `VALVE_ACTIVE` (`50 > 30`). -/
theorem claim_C4_counterexample :
    (updateDprvStatus vBase nodeTo 0 50 20).1 = LinkStatus.LINK_OPEN
    ∧ prvTransitionSpec vBase.status 0 50 20
        (vBase.fixedOutletPressure + nodeTo.elev) = LinkStatus.VALVE_ACTIVE := by
  constructor
  · norm_num [updateDprvStatus, vBase, nodeTo, ZERO_FLOW]
  · norm_num [prvTransitionSpec, vBase, nodeTo, ZERO_FLOW]

/-- Witness for C4 at a concrete TM-mode DPRV, discharging the non-FO
hypotheses of the second conjunct. -/
theorem claim_C4_witness :
    (updateDprvStatus vTM nodeTo 0 50 20).1
      = prvTransitionSpec vTM.status 0 50 20
          ((if vTM.presManagType = PresManagType.FO
            then vTM.fixedOutletPressure / 0.3048
            else nodeTo.head - nodeTo.elev) + vTM.elev)
    ∧ (if vTM.presManagType = PresManagType.FO
       then vTM.fixedOutletPressure / 0.3048
       else nodeTo.head - nodeTo.elev) + vTM.elev = nodeTo.head :=
  ⟨(claim_C4 vTM nodeTo 0 50 20).1,
   (claim_C4 vTM nodeTo 0 50 20).2 (by simp [vTM, vBase]) rfl⟩

/-- Helper: the status/flow installation step at the end of
`Valve::updateStatus`, for an arbitrary `(newStatus, dprvOutletPressure)`
pair `w`: if the installed status is `LINK_CLOSED` and the old status was
not, the flow was set to `ZERO_FLOW`. -/
theorem installStatus_flow (v : Valve) (w : LinkStatus × ℚ)
    (hold : v.status ≠ LinkStatus.LINK_CLOSED)
    (hnew : (if w.1 ≠ v.status then
               ({ v with
                  dprvOutletPressure := w.2,
                  status := w.1,
                  flow := if w.1 = LinkStatus.LINK_CLOSED then ZERO_FLOW
                          else v.flow } : Valve)
             else { v with dprvOutletPressure := w.2 }).status
        = LinkStatus.LINK_CLOSED) :
    (if w.1 ≠ v.status then
       ({ v with
          dprvOutletPressure := w.2,
          status := w.1,
          flow := if w.1 = LinkStatus.LINK_CLOSED then ZERO_FLOW
                  else v.flow } : Valve)
     else { v with dprvOutletPressure := w.2 }).flow = ZERO_FLOW := by
  rcases eq_or_ne w.1 v.status with he | he
  · rw [if_neg (by simp [he])] at hnew
    exact absurd hnew hold
  · rw [if_pos he] at hnew ⊢
    have h1 : w.1 = LinkStatus.LINK_CLOSED := hnew
    show (if w.1 = LinkStatus.LINK_CLOSED then ZERO_FLOW else v.flow) = ZERO_FLOW
    rw [if_pos h1]

/-- Claim C8 (amended): whenever `updateStatus` moves a PRV, PSV or DPRV
valve into `LINK_CLOSED`, the valve's flow is forced to `ZERO_FLOW`, the
small positive zero-flow tolerance, not to exactly 0. -/
theorem claim_C8 (v : Valve) (n : NodeState) (q h1 h2 : ℚ)
    (hty : v.valveType = ValveType.PRV ∨ v.valveType = ValveType.PSV
           ∨ v.valveType = ValveType.DPRV)
    (hold : v.status ≠ LinkStatus.LINK_CLOSED)
    (hnew : (updateStatus v n q h1 h2).status = LinkStatus.LINK_CLOSED) :
    (updateStatus v n q h1 h2).flow = ZERO_FLOW := by
  by_cases hfx : v.hasFixedStatus = true
  · exact absurd (by simpa [updateStatus, hfx] using hnew) hold
  · have hfx' : v.hasFixedStatus = false := by simpa using hfx
    simp only [updateStatus] at hnew ⊢
    rw [if_neg (show ¬(v.hasFixedStatus = true) by simp [hfx'])] at hnew ⊢
    exact installStatus_flow v (chooseStatus v n q h1 h2) hold hnew

/-- Counterexample to C8 as stated: the concrete active PRV `vPRV` with
reverse flow `q = -1` transitions to `LINK_CLOSED`, and its flow is then
`ZERO_FLOW = 1e-6`, which is not 0. -/
theorem claim_C8_counterexample :
    (updateStatus vPRV nodeTo (-1) 50 20).status = LinkStatus.LINK_CLOSED
    ∧ (updateStatus vPRV nodeTo (-1) 50 20).flow = ZERO_FLOW
    ∧ ZERO_FLOW ≠ 0 := by
  refine ⟨?_, ?_, ?_⟩
  · simp only [updateStatus, chooseStatus, updatePrvStatus, vPRV, vBase, nodeTo,
      ZERO_FLOW]
    norm_num
    rw [if_neg (by decide : ¬(LinkStatus.LINK_CLOSED = LinkStatus.VALVE_ACTIVE))]
  · simp only [updateStatus, chooseStatus, updatePrvStatus, vPRV, vBase, nodeTo,
      ZERO_FLOW]
    norm_num
    rw [if_neg (by decide : ¬(LinkStatus.LINK_CLOSED = LinkStatus.VALVE_ACTIVE))]
  · norm_num [ZERO_FLOW]

/-- Witness for C8 at the concrete PRV `vPRV` with reverse flow. -/
theorem claim_C8_witness :
    (updateStatus vPRV nodeTo (-1) 50 20).flow = ZERO_FLOW :=
  claim_C8 vPRV nodeTo (-1) 50 20 (Or.inl rfl) (by simp [vPRV, vBase])
    (by
      simp only [updateStatus, chooseStatus, updatePrvStatus, vPRV, vBase,
        nodeTo, ZERO_FLOW]
      norm_num
      rw [if_neg (by decide : ¬(LinkStatus.LINK_CLOSED = LinkStatus.VALVE_ACTIVE))])

/-- Claim C9: `Project::runSolver` returns 0 on success; called before the
solver is initialized, it raises the solver-not-initialized `SystemError`
internally, appends the message to the log, and returns the error's
positive integer code instead of propagating the exception. -/
theorem claim_C9 (p : ProjectState) (r : Except ENerror Unit) :
    (p.solverInitialized = true → r = Except.ok () → runSolver r p = (0, p))
    ∧ (p.solverInitialized = false →
        runSolver r p
          = (solverNotInitializedError.code,
             { p with msgLog := p.msgLog ++ [solverNotInitializedError.msg] })
        ∧ 0 < solverNotInitializedError.code) := by
  constructor
  · intro hi hr
    subst hr
    simp [runSolver, hi]
  · intro hi
    constructor
    · simp [runSolver, hi]
    · norm_num [solverNotInitializedError]

/-- Witness for C9: an initialized project with a successful solve returns
0; an uninitialized one returns the positive error code with the message
appended to its log. -/
theorem claim_C9_witness :
    runSolver (Except.ok ()) { solverInitialized := true, msgLog := [] }
      = (0, { solverInitialized := true, msgLog := [] })
    ∧ runSolver (Except.ok ()) { solverInitialized := false, msgLog := [] }
      = (solverNotInitializedError.code,
         { solverInitialized := false,
           msgLog := [] ++ [solverNotInitializedError.msg] })
    ∧ 0 < solverNotInitializedError.code :=
  ⟨(claim_C9 { solverInitialized := true, msgLog := [] } (Except.ok ())).1
      rfl rfl,
   ((claim_C9 { solverInitialized := false, msgLog := [] } (Except.ok ())).2
      rfl).1,
   ((claim_C9 { solverInitialized := false, msgLog := [] } (Except.ok ())).2
      rfl).2⟩

/-- Claim C10: a CLOSED non-CCV valve given a different setting takes the
early return: the setting is assigned, `changeSetting` returns false, and
status and flow are untouched, regardless of `makeChange`; for a CLOSED
CCV the early return requires the new setting to be 0, so a non-zero new
setting with `makeChange = true` opens the valve and returns true. -/
theorem claim_C10 (v : Valve) (s : ℚ) (mc : Bool) :
    (v.valveType ≠ ValveType.CCV → v.status = LinkStatus.LINK_CLOSED →
      s ≠ v.setting →
      changeSetting v s mc = ({ v with setting := s }, false))
    ∧ (v.valveType = ValveType.CCV → v.status = LinkStatus.LINK_CLOSED →
        s ≠ v.setting → s ≠ 0 →
        changeSetting v s true
          = ({ v with setting := s, status := LinkStatus.LINK_OPEN }, true)) := by
  constructor
  · intro hty hst hne
    simp [changeSetting, hty, hst, hne.symm]
  · intro hty hst hne h0
    simp [changeSetting, hty, hst, hne.symm, h0]

/-- Witness for C10: a CLOSED DPRV accepts setting 5 silently and stays
closed; the CLOSED CCV `vCCV` given setting 5 with `makeChange` opens. -/
theorem claim_C10_witness :
    changeSetting { vBase with status := LinkStatus.LINK_CLOSED } 5 true
      = ({ vBase with status := LinkStatus.LINK_CLOSED, setting := 5 }, false)
    ∧ changeSetting vCCV 5 true
      = ({ vCCV with setting := 5, status := LinkStatus.LINK_OPEN }, true) :=
  ⟨(claim_C10 { vBase with status := LinkStatus.LINK_CLOSED } 5 true).1
      (by simp [vBase]) rfl (by norm_num [vBase]),
   (claim_C10 vCCV 5 true).2 rfl rfl (by norm_num [vCCV, vBase]) (by norm_num)⟩

/-- Helper: the final clamp of the controller keeps `Xm` in `[0, 1]`,
whatever value the control law produced. -/
theorem clampXm_mem (v : Valve) : 0 ≤ (clampXm v).Xm ∧ (clampXm v).Xm ≤ 1 := by
  simp only [clampXm]
  split_ifs with ha hb hb <;> constructor <;> (try norm_num) <;> linarith

/-- Claim C3: after every call of the pressure-management controller (any
time, any status, any modulation mode) a DPRV's `Xm` lies in `[0, 1]`,
and the other valve operations (`lasting`, `updateStatus`,
`changeSetting`, `findHeadLoss`) never move `Xm`. -/
theorem claim_C3 (env : PmEnv) (v : Valve)
    (hty : v.valveType = ValveType.DPRV)
    (n : NodeState) (q h1 h2 s : ℚ) (mc : Bool) (henv : HlEnv) :
    (0 ≤ (pmStep env v).Xm ∧ (pmStep env v).Xm ≤ 1)
    ∧ (lasting v).Xm = v.Xm
    ∧ (updateStatus v n q h1 h2).Xm = v.Xm
    ∧ ((changeSetting v s mc).1).Xm = v.Xm
    ∧ (findHeadLoss henv v q).Xm = v.Xm := by
  refine ⟨?_, ?_, ?_, ?_, ?_⟩
  · have hne : ¬ v.valveType ≠ ValveType.DPRV := by simp [hty]
    simp only [pmStep]
    rw [if_neg hne]
    exact clampXm_mem _
  · unfold lasting
    split_ifs <;> rfl
  · simp only [updateStatus]
    split_ifs <;> rfl
  · simp only [changeSetting]
    split_ifs <;> rfl
  · simp only [findHeadLoss, hty]
    split_ifs <;> rfl

/-- Witness for C3 at the concrete controller environment and DPRV. -/
theorem claim_C3_witness :
    0 ≤ (pmStep envBase vBase).Xm ∧ (pmStep envBase vBase).Xm ≤ 1 :=
  (claim_C3 envBase vBase rfl nodeTo 0 50 20 5 true hlEnvBase).1

/-- Helper: the clamp does not touch `errorValve`. -/
theorem clampXm_errorValve (w : Valve) :
    (clampXm w).errorValve = w.errorValve := by
  simp only [clampXm]
  split_ifs <;> rfl

/-- Helper: the clamp does not touch `delta_Xm`. -/
theorem clampXm_delta (w : Valve) : (clampXm w).delta_Xm = w.delta_Xm := by
  simp only [clampXm]
  split_ifs <;> rfl

/-- Helper: the clamp is the identity on an `Xm` already in `[0, 1]`. -/
theorem clampXm_Xm_of_mem (w : Valve) (hlo : 0 ≤ w.Xm) (hhi : w.Xm ≤ 1) :
    (clampXm w).Xm = w.Xm := by
  simp only [clampXm]
  split_ifs with ha hb hb <;>
    first
      | rfl
      | (show (1:ℚ) = w.Xm; linarith)
      | (show (0:ℚ) = w.Xm; linarith)

/-- Claim C1: for a DPRV that is `VALVE_ACTIVE` when the controller runs
(at a step with `t ≠ 0`, so the fields are not being re-initialized), the
controller stores `errorValve = e = ref - p_target`, sets
`delta_Xm = (q3 / Acs) * dt_hyd` with `q3 = alfaopen * e` for `e ≥ 0` and
`alfaclose * e` otherwise and `Acs = (k5 Xm² + k6) Vcontrol / lift`, and
sets `Xm = Xm_Last + delta_Xm` (exactly, whenever that sum needs no
clamping). -/
theorem claim_C1 (env : PmEnv) (v : Valve)
    (hty : v.valveType = ValveType.DPRV)
    (hst : v.status = LinkStatus.VALVE_ACTIVE)
    (ht : env.t ≠ 0) :
    (pmStep env v).errorValve = dprvRef env v - dprvTarget env v
    ∧ (pmStep env v).delta_Xm
      = physicalQ3 env.alfaopen env.alfaclose
          (dprvRef env v - dprvTarget env v) / Acs v.Xm * env.deltat
    ∧ (0 ≤ v.Xm_Last + physicalQ3 env.alfaopen env.alfaclose
              (dprvRef env v - dprvTarget env v) / Acs v.Xm * env.deltat →
       v.Xm_Last + physicalQ3 env.alfaopen env.alfaclose
              (dprvRef env v - dprvTarget env v) / Acs v.Xm * env.deltat ≤ 1 →
       (pmStep env v).Xm
         = v.Xm_Last + physicalQ3 env.alfaopen env.alfaclose
              (dprvRef env v - dprvTarget env v) / Acs v.Xm * env.deltat) := by
  have he : pmStep env v
      = clampXm { v with
          errorValve := dprvRef env v - dprvTarget env v,
          delta_Xm := physicalQ3 env.alfaopen env.alfaclose
              (dprvRef env v - dprvTarget env v) / Acs v.Xm * env.deltat,
          Xm := physicalQ3 env.alfaopen env.alfaclose
              (dprvRef env v - dprvTarget env v) / Acs v.Xm * env.deltat
            + v.Xm_Last } := by
    simp [pmStep, hty, hst, ht]
  refine ⟨?_, ?_, fun hlo hhi => ?_⟩
  · rw [he, clampXm_errorValve]
  · rw [he, clampXm_delta]
  · rw [he, clampXm_Xm_of_mem _ (by
      show (0:ℚ) ≤ physicalQ3 env.alfaopen env.alfaclose
          (dprvRef env v - dprvTarget env v) / Acs v.Xm * env.deltat
        + v.Xm_Last
      linarith) (by
      show physicalQ3 env.alfaopen env.alfaclose
          (dprvRef env v - dprvTarget env v) / Acs v.Xm * env.deltat
        + v.Xm_Last ≤ 1
      linarith)]
    exact add_comm _ _

/-- Witness for C1 at the concrete FO-mode DPRV and environment
(`e = 10`, all bounds satisfied). -/
theorem claim_C1_witness :
    (pmStep envBase vBase).errorValve
      = dprvRef envBase vBase - dprvTarget envBase vBase
    ∧ (pmStep envBase vBase).delta_Xm
      = physicalQ3 envBase.alfaopen envBase.alfaclose
          (dprvRef envBase vBase - dprvTarget envBase vBase)
          / Acs vBase.Xm * envBase.deltat
    ∧ (pmStep envBase vBase).Xm
      = vBase.Xm_Last + physicalQ3 envBase.alfaopen envBase.alfaclose
          (dprvRef envBase vBase - dprvTarget envBase vBase)
          / Acs vBase.Xm * envBase.deltat := by
  have h := claim_C1 envBase vBase rfl rfl (by norm_num [envBase])
  refine ⟨h.1, h.2.1, h.2.2 ?_ ?_⟩
  · norm_num [physicalQ3, Acs, dprvRef, dprvTarget, vBase, envBase, nodeTo,
      k5, k6, Vcontrol, lift]
  · norm_num [physicalQ3, Acs, dprvRef, dprvTarget, vBase, envBase, nodeTo,
      k5, k6, Vcontrol, lift]

/-- Helper: over `[0, 604800]` the hard-coded TM schedule equals a single
chain of left-open, right-closed intervals (so it has no gaps, never reads
the uninitialized `ref`, and every shared boundary belongs to the interval
that ends there). -/
theorem tmRef_canonical (t : ℤ) (day night u r : ℚ)
    (h0 : 0 ≤ t) (h1 : t ≤ 604800) :
    tmRef t day night u r =
      (if t ≤ 3600 then day / u
       else if t ≤ 18000 then night / u
       else if t ≤ 90000 then day / u
       else if t ≤ 104400 then night / u
       else if t ≤ 176400 then day / u
       else if t ≤ 190800 then night / u
       else if t ≤ 262800 then day / u
       else if t ≤ 277200 then night / u
       else if t ≤ 349200 then day / u
       else if t ≤ 363600 then night / u
       else if t ≤ 435600 then day / u
       else if t ≤ 450000 then night / u
       else if t ≤ 522000 then day / u
       else if t ≤ 536400 then night / u
       else day / u) := by
  simp only [tmRef]
  by_cases c1 : t ≤ 3600
  · rw [if_pos (show (0:ℤ) ≤ t ∧ t ≤ 3600 from ⟨h0, c1⟩), if_pos c1]
  · rw [if_neg (show ¬((0:ℤ) ≤ t ∧ t ≤ 3600) from fun h => c1 h.2), if_neg c1]
    by_cases c2 : t ≤ 18000
    · rw [if_pos (show (3600:ℤ) ≤ t ∧ t ≤ 18000 from ⟨by omega, c2⟩), if_pos c2]
    · rw [if_neg (show ¬((3600:ℤ) ≤ t ∧ t ≤ 18000) from fun h => c2 h.2), if_neg c2]
      by_cases c3 : t ≤ 90000
      · rw [if_pos (show (18000:ℤ) ≤ t ∧ t ≤ 90000 from ⟨by omega, c3⟩), if_pos c3]
      · rw [if_neg (show ¬((18000:ℤ) ≤ t ∧ t ≤ 90000) from fun h => c3 h.2), if_neg c3]
        by_cases c4 : t ≤ 104400
        · rw [if_pos (show (90000:ℤ) ≤ t ∧ t ≤ 104400 from ⟨by omega, c4⟩), if_pos c4]
        · rw [if_neg (show ¬((90000:ℤ) ≤ t ∧ t ≤ 104400) from fun h => c4 h.2), if_neg c4]
          by_cases c5 : t ≤ 176400
          · rw [if_pos (show (104400:ℤ) ≤ t ∧ t ≤ 176400 from ⟨by omega, c5⟩), if_pos c5]
          · rw [if_neg (show ¬((104400:ℤ) ≤ t ∧ t ≤ 176400) from fun h => c5 h.2), if_neg c5]
            by_cases c6 : t ≤ 190800
            · rw [if_pos (show (176400:ℤ) ≤ t ∧ t ≤ 190800 from ⟨by omega, c6⟩), if_pos c6]
            · rw [if_neg (show ¬((176400:ℤ) ≤ t ∧ t ≤ 190800) from fun h => c6 h.2), if_neg c6]
              by_cases c7 : t ≤ 262800
              · rw [if_pos (show (190800:ℤ) ≤ t ∧ t ≤ 262800 from ⟨by omega, c7⟩), if_pos c7]
              · rw [if_neg (show ¬((190800:ℤ) ≤ t ∧ t ≤ 262800) from fun h => c7 h.2), if_neg c7]
                by_cases c8 : t ≤ 277200
                · rw [if_pos (show (262800:ℤ) ≤ t ∧ t ≤ 277200 from ⟨by omega, c8⟩), if_pos c8]
                · rw [if_neg (show ¬((262800:ℤ) ≤ t ∧ t ≤ 277200) from fun h => c8 h.2), if_neg c8]
                  by_cases c9 : t ≤ 349200
                  · rw [if_pos (show (277200:ℤ) ≤ t ∧ t ≤ 349200 from ⟨by omega, c9⟩), if_pos c9]
                  · rw [if_neg (show ¬((277200:ℤ) ≤ t ∧ t ≤ 349200) from fun h => c9 h.2), if_neg c9]
                    by_cases c10 : t ≤ 363600
                    · rw [if_pos (show (349200:ℤ) ≤ t ∧ t ≤ 363600 from ⟨by omega, c10⟩), if_pos c10]
                    · rw [if_neg (show ¬((349200:ℤ) ≤ t ∧ t ≤ 363600) from fun h => c10 h.2), if_neg c10]
                      by_cases c11 : t ≤ 435600
                      · rw [if_pos (show (363600:ℤ) ≤ t ∧ t ≤ 435600 from ⟨by omega, c11⟩), if_pos c11]
                      · rw [if_neg (show ¬((363600:ℤ) ≤ t ∧ t ≤ 435600) from fun h => c11 h.2), if_neg c11]
                        by_cases c12 : t ≤ 450000
                        · rw [if_pos (show (435600:ℤ) ≤ t ∧ t ≤ 450000 from ⟨by omega, c12⟩), if_pos c12]
                        · rw [if_neg (show ¬((435600:ℤ) ≤ t ∧ t ≤ 450000) from fun h => c12 h.2), if_neg c12]
                          by_cases c13 : t ≤ 522000
                          · rw [if_pos (show (450000:ℤ) ≤ t ∧ t ≤ 522000 from ⟨by omega, c13⟩), if_pos c13]
                          · rw [if_neg (show ¬((450000:ℤ) ≤ t ∧ t ≤ 522000) from fun h => c13 h.2), if_neg c13]
                            by_cases c14 : t ≤ 536400
                            · rw [if_pos (show (522000:ℤ) ≤ t ∧ t ≤ 536400 from ⟨by omega, c14⟩), if_pos c14]
                            · rw [if_neg (show ¬((522000:ℤ) ≤ t ∧ t ≤ 536400) from fun h => c14 h.2), if_neg c14]
                              rw [if_pos (show (536400:ℤ) ≤ t ∧ t ≤ 604800 from ⟨by omega, h1⟩)]

/-- Claim C6 (amended): over the schedule's horizon `[0, 604800]` the TM
setpoint is total (independent of the stale `ref` value, i.e. no gaps) and
the intervals are contiguous and closed on the RIGHT: at a boundary
instant shared by two consecutive intervals the reference of the interval
ENDING at `t` is chosen, not the one beginning at `t`. -/
theorem claim_C6 (t : ℤ) (day night u r1 r2 : ℚ)
    (h0 : 0 ≤ t) (h1 : t ≤ 604800) :
    tmRef t day night u r1 = tmRef t day night u r2
    ∧ tmRef t day night u r1 =
      (if t ≤ 3600 then day / u
       else if t ≤ 18000 then night / u
       else if t ≤ 90000 then day / u
       else if t ≤ 104400 then night / u
       else if t ≤ 176400 then day / u
       else if t ≤ 190800 then night / u
       else if t ≤ 262800 then day / u
       else if t ≤ 277200 then night / u
       else if t ≤ 349200 then day / u
       else if t ≤ 363600 then night / u
       else if t ≤ 435600 then day / u
       else if t ≤ 450000 then night / u
       else if t ≤ 522000 then day / u
       else if t ≤ 536400 then night / u
       else day / u) :=
  ⟨(tmRef_canonical t day night u r1 h0 h1).trans
     (tmRef_canonical t day night u r2 h0 h1).symm,
   tmRef_canonical t day night u r1 h0 h1⟩

/-- Counterexample to C6 as stated: at the boundary `t = 3600` shared by
the day interval `[0, 3600]` and the night interval beginning at 3600,
`pressureManagement` chooses the DAY pressure (the interval ending at
`t`), not the night pressure of the interval that begins at `t` as the
claim's left-closed boundaries require (with `day = 40`, `night = 25`,
unit factor 1 the claim predicts 25, the code yields 40). -/
theorem claim_C6_counterexample :
    tmRef 3600 40 25 1 0 = 40 / 1 ∧ (40 : ℚ) / 1 ≠ 25 / 1 := by
  constructor
  · norm_num [tmRef]
  · norm_num

/-- Witness for C6 at the boundary instant 3600 with two different stale
values, discharging the horizon hypotheses. -/
theorem claim_C6_witness : tmRef 3600 40 25 1 7 = tmRef 3600 40 25 1 9 :=
  (claim_C6 3600 40 25 1 7 9 (by norm_num) (by norm_num)).1

/-- Claim C7 (amended): `findHeadLoss` reports `inertialTerm =
MIN_GRADIENT` for the purely resistive variants (temporarily closed
valves, fixed open/closed valves, PBV, TCV, GPV, FCV, PRV, PSV, a CCV
with setting 0, and a DPRV that is CLOSED or has `Xm = 0`); the
geometry-dependent non-zero value `10.765 / (32.174 · PI · d²)` for a CCV
in its active branch; and ZERO — not a non-zero value as the claim
states — for a DPRV in its open and active branches. -/
theorem claim_C7 (env : HlEnv) (v : Valve) (q : ℚ) :
    (v.status = LinkStatus.TEMP_CLOSED →
      (findHeadLoss env v q).inertialTerm = MIN_GRADIENT)
    ∧ (v.status ≠ LinkStatus.TEMP_CLOSED → v.hasFixedStatus = true →
        (v.status = LinkStatus.LINK_CLOSED ∨ v.status = LinkStatus.LINK_OPEN) →
        (findHeadLoss env v q).inertialTerm = MIN_GRADIENT)
    ∧ (v.status ≠ LinkStatus.TEMP_CLOSED → v.hasFixedStatus = false →
        (v.valveType = ValveType.PBV ∨ v.valveType = ValveType.TCV
          ∨ v.valveType = ValveType.GPV ∨ v.valveType = ValveType.FCV
          ∨ v.valveType = ValveType.PRV ∨ v.valveType = ValveType.PSV) →
        (findHeadLoss env v q).inertialTerm = MIN_GRADIENT)
    ∧ (v.status ≠ LinkStatus.TEMP_CLOSED → v.hasFixedStatus = false →
        v.valveType = ValveType.CCV → v.setting = 0 →
        (findHeadLoss env v q).inertialTerm = MIN_GRADIENT)
    ∧ (v.status ≠ LinkStatus.TEMP_CLOSED → v.hasFixedStatus = false →
        v.valveType = ValveType.CCV → v.setting ≠ 0 →
        (findHeadLoss env v q).inertialTerm
          = 10.765 / (32.174 * PI * v.diameter * v.diameter)
        ∧ (0 < v.diameter → (findHeadLoss env v q).inertialTerm ≠ 0))
    ∧ (v.status ≠ LinkStatus.TEMP_CLOSED → v.hasFixedStatus = false →
        v.valveType = ValveType.DPRV →
        (v.status = LinkStatus.LINK_CLOSED ∨ v.Xm = 0) →
        (findHeadLoss env v q).inertialTerm = MIN_GRADIENT)
    ∧ (v.status ≠ LinkStatus.TEMP_CLOSED → v.hasFixedStatus = false →
        v.valveType = ValveType.DPRV →
        v.status ≠ LinkStatus.LINK_CLOSED → v.Xm ≠ 0 →
        (findHeadLoss env v q).inertialTerm = 0) := by
  refine ⟨?_, ?_, ?_, ?_, ?_, ?_, ?_⟩
  · intro h
    simp [findHeadLoss, h]
  · intro h hf hso
    rcases hso with h' | h' <;> simp [findHeadLoss, h, hf, h']
  · intro h hf hvt
    rcases hvt with h' | h' | h' | h' | h' | h' <;>
      simp [findHeadLoss, h, hf, h'] <;> split_ifs <;> rfl
  · intro h hf hvt hs
    simp [findHeadLoss, h, hf, hvt, hs]
  · intro h hf hvt hs
    have hval : (findHeadLoss env v q).inertialTerm
        = 10.765 / (32.174 * PI * v.diameter * v.diameter) := by
      simp [findHeadLoss, h, hf, hvt, hs]
    refine ⟨hval, fun hd => ?_⟩
    rw [hval]
    have hpi : (0:ℚ) < PI := by norm_num [PI]
    have hden : (0:ℚ) < 32.174 * PI * v.diameter * v.diameter := by positivity
    exact div_ne_zero (by norm_num) (ne_of_gt hden)
  · intro h hf hvt hcz
    rcases hcz with h' | h' <;> simp [findHeadLoss, h, hf, hvt, h'] <;>
      split_ifs <;> rfl
  · intro h hf hvt hc hx
    simp [findHeadLoss, h, hf, hvt, hc, hx]
    split_ifs <;> rfl

/-- Counterexample to C7 as stated: for the concrete active DPRV `vBase`
(no fixed status, `Xm = 0.5`), the active DPRV branch of `findHeadLoss`
reports an inertial term of exactly 0, not a geometry-dependent non-zero
value. -/
theorem claim_C7_counterexample :
    (findHeadLoss hlEnvBase vBase 1).inertialTerm = 0 := by
  have h1 : ¬(LinkStatus.VALVE_ACTIVE = LinkStatus.TEMP_CLOSED) := by decide
  have h2 : ¬(LinkStatus.VALVE_ACTIVE = LinkStatus.LINK_CLOSED
      ∨ (0.5 : ℚ) = 0) := by
    rintro (h | h)
    · exact absurd h (by decide)
    · norm_num at h
  have h3 : ¬(LinkStatus.VALVE_ACTIVE = LinkStatus.LINK_OPEN) := by decide
  simp only [findHeadLoss, vBase, hlEnvBase, Bool.false_eq_true, if_false]
  rw [if_neg h1, if_neg h2, if_neg h3]

/-- Witness for C7, using its CCV and DPRV conjuncts at concrete valves. -/
theorem claim_C7_witness :
    (findHeadLoss hlEnvBase { vBase with status := LinkStatus.TEMP_CLOSED }
        2).inertialTerm = MIN_GRADIENT
    ∧ (findHeadLoss hlEnvBase vBase 2).inertialTerm = 0 :=
  ⟨(claim_C7 hlEnvBase { vBase with status := LinkStatus.TEMP_CLOSED } 2).1 rfl,
   (claim_C7 hlEnvBase vBase 2).2.2.2.2.2.2 (by simp [vBase]) rfl rfl
     (by simp [vBase]) (by norm_num [vBase])⟩

/-- Helper: on `[0, 1]` the source's `dprvCv` agrees with the claim's
piecewise formula. -/
theorem dprvCv_eq_spec (Xm : ℚ) (hlo : 0 ≤ Xm) (hhi : Xm ≤ 1) :
    dprvCv Xm = CvSpec Xm := by
  unfold dprvCv CvSpec
  rcases lt_or_ge Xm 0.12 with hc | hc
  · rw [if_pos (show 0 ≤ Xm ∧ Xm < 0.12 from ⟨hlo, hc⟩),
      if_pos (show Xm < 0.12 from hc)]
  · rw [if_neg (show ¬(0 ≤ Xm ∧ Xm < 0.12) from
        fun h => absurd h.2 (not_lt.mpr hc)),
      if_pos (show 0.12 ≤ Xm ∧ Xm ≤ 1 from ⟨hc, hhi⟩),
      if_neg (show ¬(Xm < 0.12) from not_lt.mpr hc)]

/-- Claim C2 (amended): for a DPRV without fixed status whose status is
neither `LINK_CLOSED`, `LINK_OPEN` NOR `TEMP_CLOSED` (the claim omitted
the last) and with `Xm ≠ 0` (in `[0, 1]`), `findHeadLoss` computes the
piecewise flow coefficient `Cv(Xm)` and sets `hLoss`/`hGrad` by the
open-valve formula with loss factor `1/Cv²`, in particular
`hGrad = max(2·(1/Cv²)·|q|, MIN_GRADIENT)`. -/
theorem claim_C2 (env : HlEnv) (v : Valve) (q : ℚ)
    (hty : v.valveType = ValveType.DPRV)
    (hfx : v.hasFixedStatus = false)
    (hcl : v.status ≠ LinkStatus.LINK_CLOSED)
    (hop : v.status ≠ LinkStatus.LINK_OPEN)
    (htc : v.status ≠ LinkStatus.TEMP_CLOSED)
    (hXm : v.Xm ≠ 0) (hlo : 0 ≤ v.Xm) (hhi : v.Xm ≤ 1) :
    (findHeadLoss env v q).hGrad
      = max (2 * (1 / (CvSpec v.Xm * CvSpec v.Xm)) * |q|) MIN_GRADIENT
    ∧ (findHeadLoss env v q).hLoss
      = (if 2 * (1 / (CvSpec v.Xm * CvSpec v.Xm)) * |q| < MIN_GRADIENT
         then MIN_GRADIENT * q
         else (1 / (CvSpec v.Xm * CvSpec v.Xm)) * |q| * q) := by
  have hst : v.status = LinkStatus.VALVE_ACTIVE := by
    cases hs : v.status
    · exact absurd hs hcl
    · exact absurd hs hop
    · rfl
    · exact absurd hs htc
  have he : findHeadLoss env v q
      = { v with
          hLoss := (findDprvHeadLoss { v with hLoss := 0, hGrad := 0 } q).1,
          hGrad := (findDprvHeadLoss { v with hLoss := 0, hGrad := 0 } q).2,
          inertialTerm := 0 } := by
    simp [findHeadLoss, hty, hst, hfx, hXm]
  constructor
  · rw [he]
    show (findOpenHeadLoss (1 / (dprvCv v.Xm * dprvCv v.Xm)) q).2
      = max (2 * (1 / (CvSpec v.Xm * CvSpec v.Xm)) * |q|) MIN_GRADIENT
    rw [dprvCv_eq_spec v.Xm hlo hhi]
    simp only [findOpenHeadLoss]
    rcases lt_or_ge (2 * (1 / (CvSpec v.Xm * CvSpec v.Xm)) * |q|)
        MIN_GRADIENT with h | h
    · rw [if_pos h]
      exact (max_eq_right (le_of_lt h)).symm
    · rw [if_neg (not_lt.mpr h)]
      exact (max_eq_left h).symm
  · rw [he]
    show (findOpenHeadLoss (1 / (dprvCv v.Xm * dprvCv v.Xm)) q).1
      = (if 2 * (1 / (CvSpec v.Xm * CvSpec v.Xm)) * |q| < MIN_GRADIENT
         then MIN_GRADIENT * q
         else (1 / (CvSpec v.Xm * CvSpec v.Xm)) * |q| * q)
    rw [dprvCv_eq_spec v.Xm hlo hhi]
    simp only [findOpenHeadLoss]
    rcases lt_or_ge (2 * (1 / (CvSpec v.Xm * CvSpec v.Xm)) * |q|)
        MIN_GRADIENT with h | h
    · rw [if_pos h, if_pos h]
    · rw [if_neg (not_lt.mpr h), if_neg (not_lt.mpr h)]
      ring

/-- Counterexample to C2 as stated: the DPRV `vTmp` is TEMP_CLOSED — a
status that is neither `LINK_CLOSED` nor `LINK_OPEN`, so the claim's
hypotheses hold — yet `findHeadLoss` applies the closed formula
(`hGrad = HIGH_RESISTANCE`), not the open formula with the piecewise
`Cv` the claim requires. -/
theorem claim_C2_counterexample :
    (findHeadLoss hlEnvBase vTmp 1).hGrad = HIGH_RESISTANCE
    ∧ (findHeadLoss hlEnvBase vTmp 1).hGrad
      ≠ max (2 * (1 / (CvSpec (0.5 : ℚ) * CvSpec (0.5 : ℚ))) * |(1 : ℚ)|)
          MIN_GRADIENT := by
  have hg : (findHeadLoss hlEnvBase vTmp 1).hGrad = HIGH_RESISTANCE := by
    simp [findHeadLoss, vTmp, vBase, findClosedHeadLoss]
  refine ⟨hg, ?_⟩
  rw [hg]
  norm_num [CvSpec, Cvmax, k1, k2, k3, k4, MIN_GRADIENT, HIGH_RESISTANCE,
    max_def]

/-- Witness for C2 at the active half-open DPRV `vBase` with `q = 1`. -/
theorem claim_C2_witness :
    (findHeadLoss hlEnvBase vBase 1).hGrad
      = max (2 * (1 / (CvSpec vBase.Xm * CvSpec vBase.Xm)) * |(1 : ℚ)|)
          MIN_GRADIENT :=
  (claim_C2 hlEnvBase vBase 1 rfl rfl (by simp [vBase]) (by simp [vBase])
    (by simp [vBase]) (by norm_num [vBase]) (by norm_num [vBase])
    (by norm_num [vBase])).1

end EpanetPM
